import Mathlib

/-!
A shallow embedding of `src/lastfm.py`, a client library for the Last.fm
web API.  JSON values are modelled by an inductive type; Python dictionary
and list access, truthiness, `in`, `int()` coercion and `str.replace` are
modelled explicitly, and every operation that can raise a Python exception
returns `Except PyError`.  The HTTP layer is abstracted away: each method
takes the decoded JSON body (or bodies, for the fan-out methods) that the
wire would have produced, exactly as `response.json()` hands them to the
source code.
-/

/-- A JSON value, as produced by `response.json()` in the source. -/
inductive Json : Type where
  | null : Json
  | bool : Bool → Json
  | num : Int → Json
  | str : String → Json
  | arr : List Json → Json
  | obj : List (String × Json) → Json

/-- The Python exceptions the embedded code can raise.  `lastFMError`
models the `LastFMError` class of the source; the others are built-in exceptions
raised by dictionary/list access, unpacking and coercion. -/
inductive PyError : Type where
  | keyError : PyError
  | indexError : PyError
  | typeError : PyError
  | valueError : PyError
  | attributeError : PyError
  | lastFMError : String → PyError
deriving DecidableEq

/-- Python truthiness of a JSON value (`bool(x)`). -/
def Json.truthy : Json → Bool
  | .null => false
  | .bool b => b
  | .num n => n != 0
  | .str s => s != ""
  | .arr xs => !xs.isEmpty
  | .obj fs => !fs.isEmpty

/-- Python truthiness of a `dict.get` result (`None` is falsy). -/
def optTruthy : Option Json → Bool
  | none => false
  | some v => v.truthy

/-- Python `d.get(k)` on a JSON object: `none` models Python `None`. -/
def Json.get : Json → String → Option Json
  | .obj fs, k => fs.lookup k
  | _, _ => none

/-- Python subscripting `j[k]` with a string key: `KeyError` when the key
is missing, `TypeError` when the value is not a dictionary (indexing a
string or list with a string key raises `TypeError` in Python). -/
def Json.sub : Json → String → Except PyError Json
  | .obj fs, k =>
    match fs.lookup k with
    | some v => .ok v
    | none => .error .keyError
  | _, _ => .error .typeError

/-- Python subscripting `j[i]` with an integer index (negative indices
count from the end, as in `xs[-1]`). -/
def Json.idx : Json → Int → Except PyError Json
  | .arr xs, i =>
    let k : Int := if i < 0 then i + xs.length else i
    if k < 0 then .error .indexError
    else
      match xs[k.toNat]? with
      | some v => .ok v
      | none => .error .indexError
  | _, _ => .error .typeError

/-- Python iteration `for x in j`: a list yields its elements, a
dictionary yields its keys, a string yields its one-character substrings,
anything else raises `TypeError`. -/
def pyIter : Json → Except PyError (List Json)
  | .arr xs => .ok xs
  | .obj fs => .ok (fs.map (fun kv => Json.str kv.1))
  | .str s => .ok (s.toList.map (fun c => Json.str (String.singleton c)))
  | _ => .error .typeError

/-- Whether one character list begins with another. -/
def charsStartWith : List Char → List Char → Bool
  | [], _ => true
  | _ :: _, [] => false
  | p :: ps, c :: cs => p == c && charsStartWith ps cs

/-- Whether one character list occurs inside another. -/
def charsContain (needle : List Char) : List Char → Bool
  | [] => needle.isEmpty
  | c :: rest => charsStartWith needle (c :: rest) || charsContain needle rest

/-- Python `k in j`: key membership for a dictionary, element membership
for a list, substring test for a string. -/
def pyIn (s : String) : Json → Bool
  | .obj fs => fs.any (fun kv => kv.1 == s)
  | .arr xs =>
    xs.any (fun x =>
      match x with
      | .str t => t == s
      | _ => false)
  | .str t => charsContain s.toList t.toList
  | _ => false

/-- Parse a list of decimal digits into a natural number. -/
def digitsToNat : List Char → Option Nat
  | [] => none
  | cs =>
    cs.foldl
      (fun acc c =>
        match acc with
        | none => none
        | some n => if c.isDigit then some (n * 10 + (c.toNat - 48)) else none)
      (some 0)

/-- The integer denoted by a string under Python `int()`: optional
surrounding spaces, an optional sign, then one or more decimal digits. -/
def pyIntOfStr (s : String) : Option Int :=
  let cs := (s.toList.dropWhile (· = ' ')).reverse.dropWhile (· = ' ') |>.reverse
  match cs with
  | '-' :: rest => (digitsToNat rest).map (fun n => -(n : Int))
  | '+' :: rest => (digitsToNat rest).map (fun n => (n : Int))
  | rest => (digitsToNat rest).map (fun n => (n : Int))

/-- Python `int(x)` on a JSON value: numbers and booleans coerce, numeric
strings parse, other strings raise `ValueError`, anything else raises
`TypeError`. -/
def pyInt : Json → Except PyError Int
  | .num n => .ok n
  | .bool b => .ok (if b then 1 else 0)
  | .str s =>
    match pyIntOfStr s with
    | some n => .ok n
    | none => .error .valueError
  | _ => .error .typeError

/-- Replace every occurrence of `pat` in the character list, left to
right and non-overlapping, as Python `str.replace` does.  The `Nat`
argument is fuel bounding the recursion by the input length. -/
def pyReplaceChars (pat rep : List Char) : Nat → List Char → List Char
  | _, [] => []
  | 0, l => l
  | fuel + 1, c :: rest =>
    if !pat.isEmpty && charsStartWith pat (c :: rest) then
      rep ++ pyReplaceChars pat rep fuel ((c :: rest).drop pat.length)
    else
      c :: pyReplaceChars pat rep fuel rest

/-- Python `s.replace(pat, rep)` on a JSON value; a non-string receiver
raises `AttributeError`. -/
def pyReplace (j : Json) (pat rep : String) : Except PyError Json :=
  match j with
  | .str s => .ok (.str (String.mk (pyReplaceChars pat.toList rep.toList s.toList.length s.toList)))
  | _ => .error .attributeError

/-- The source idiom `x or None`: a falsy value becomes `None`. -/
def orNone (j : Json) : Json := if j.truthy then j else Json.null

/-- The source idiom `x if x != "None" else None` used for the user
country in `now_playing`. -/
def noneStrToNull (j : Json) : Json :=
  match j with
  | .str s => if s == "None" then Json.null else .str s
  | _ => j

/-- The source idiom `x == "subscriber"`: Python equality between a JSON
value and a string literal. -/
def pyEqStr (j : Json) (s : String) : Bool :=
  match j with
  | .str t => t == s
  | _ => false

/-- The static error table `LASTFM_ERRORS` from the source, in source
order. -/
def LASTFM_ERRORS : List (Int × String) :=
  [(6, "User/artist not found"),
   (8, "Backend issue"),
   (17, "Users privacy settings blocking this request"),
   (26, "Access for your account has been suspended, please contact Last.fm"),
   (13, "Invalid method signature supplied"),
   (16, "There was a temporary error processing your request. Please try again"),
   (29, "Rate limit exceeded"),
   (10, "Invalid API key"),
   (11, "Service Offline - This service is temporarily offline. Try again later."),
   (3, "Invalid method - No method with that name in this package"),
   (4, "Authentication Failed - You do not have permissions to access the service"),
   (5, "Invalid format - This service doesn\x27t exist in that format"),
   (7, "Invalid parameters - Your request is missing a required parameter"),
   (9, "Invalid resource specified"),
   (15, "This token has not been authorized"),
   (18, "There was a temporary error processing your request. Please try again"),
   (19, "You must be logged in to do that"),
   (20, "This operation requires authentication"),
   (21, "You do not have permissions to access the service"),
   (22, "There was a temporary error processing your request. Please try again"),
   (23, "Operation failed - Most likely the backend service failed. Please try again."),
   (24, "Invalid session key - Please re-authenticate")]

/-- Python `LASTFM_ERRORS[data.get("error")]`: the table is keyed by
integers, so only an integer (or a boolean, which Python hashes as 0/1)
can be found; any other key raises `KeyError`, modelled by `none`. -/
def lastfmErrorLookup : Option Json → Option String
  | some (.num n) => LASTFM_ERRORS.lookup n
  | some (.bool b) => LASTFM_ERRORS.lookup (if b then 1 else 0)
  | _ => none

/-- `LastFM.request`, lines 44-58 of the source, with the HTTP round trip
abstracted: `data` is the decoded JSON body and `paramater` the optional
required top-level field name.  The source tests `"errors" in data`
(plural) and then reads `data.get("error")`; an absent table entry makes
the f-string raise a bare `KeyError` before any `LastFMError` is built. -/
def request (data : Json) (paramater : Option String) : Except PyError Json :=
  if pyIn "errors" data then
    match lastfmErrorLookup (data.get "error") with
    | some msg => .error (.lastFMError ("Error: " ++ msg))
    | none => .error .keyError
  else
    match paramater with
    | some p =>
      if (p != "") && !(optTruthy (data.get p)) then
        .error (.lastFMError ("Error: " ++ p ++ " not found"))
      else .ok data
    | none => .ok data

/-- C1: a response body carrying a known error code, e.g. `{"error": 6}`,
does not raise the mapped `LastFMError` at all: the source tests for the
key `"errors"` (plural), so the body is returned as success when no
required field was demanded, and yields the unrelated "user not found"
error when one was; moreover the static table has 22 entries, not 27. -/
theorem C1_mapped_error_not_raised :
    request (Json.obj [("error", Json.num 6)]) none
      = .ok (Json.obj [("error", Json.num 6)])
  ∧ request (Json.obj [("error", Json.num 6)]) (some "user")
      = .error (.lastFMError "Error: user not found")
  ∧ LASTFM_ERRORS.length = 22 :=
  ⟨rfl, rfl, rfl⟩

/-- C5 counterexample: a body whose error code 99 is absent from the table
is returned as a success value, contradicting the claim that the unmapped
code is never masked as success. -/
theorem C5_unmapped_code_masked_as_success :
    request (Json.obj [("error", Json.num 99)]) none
      = .ok (Json.obj [("error", Json.num 99)]) := rfl

/-- C5 amended: when the error branch is actually taken (the body has an
`"errors"` key) and the code is absent from the table, `request` fails
with a raw `KeyError` lookup failure, never with a `LastFMError`; and a
body `{"error": N}` without an `"errors"` key is not treated as an error
at all. -/
theorem C5_unmapped_error_keyerror (data : Json) (paramater : Option String)
    (h1 : pyIn "errors" data = true)
    (h2 : lastfmErrorLookup (data.get "error") = none) :
    request data paramater = .error PyError.keyError
  ∧ ∀ m, request data paramater ≠ .error (.lastFMError m) := by
  have hr : request data paramater = .error PyError.keyError := by
    simp [request, h1, h2]
  refine ⟨hr, fun m hm => ?_⟩
  rw [hr] at hm
  exact PyError.noConfusion (Except.error.inj hm)

/-- C5 witness: the amended behaviour at the concrete body
`{"errors": [], "error": 99}`. -/
theorem C5_unmapped_error_keyerror_witness :
    request (Json.obj [("errors", Json.arr []), ("error", Json.num 99)]) none
      = .error PyError.keyError :=
  (C5_unmapped_error_keyerror
    (Json.obj [("errors", Json.arr []), ("error", Json.num 99)]) none rfl rfl).1

/-- C6: on a body with no error indicator, a supplied (non-empty) required
field name that is absent or falsy makes `request` raise a `LastFMError`
naming the field, and otherwise `request` returns the decoded body
unmodified. -/
theorem C6_required_field_check (data : Json) (p : String)
    (he1 : pyIn "errors" data = false) (he2 : pyIn "error" data = false)
    (hp : p ≠ "") :
    (optTruthy (data.get p) = false →
      request data (some p) = .error (.lastFMError ("Error: " ++ p ++ " not found")))
  ∧ (optTruthy (data.get p) = true → request data (some p) = .ok data) := by
  constructor
  · intro hf
    simp [request, he1, hf, hp]
  · intro ht
    simp [request, he1, ht]

/-- C6 witness: concrete bodies exercising both branches. -/
theorem C6_required_field_check_witness :
    request (Json.obj [("user", Json.str "u")]) (some "user")
      = .ok (Json.obj [("user", Json.str "u")])
  ∧ request (Json.obj [("foo", Json.num 1)]) (some "user")
      = .error (.lastFMError "Error: user not found") :=
  ⟨(C6_required_field_check (Json.obj [("user", Json.str "u")]) "user"
      rfl rfl (by decide)).2 rfl,
   (C6_required_field_check (Json.obj [("foo", Json.num 1)]) "user"
      rfl rfl (by decide)).1 rfl⟩

@[simp] theorem except_bind_ok {ε α β : Type} (a : α) (f : α → Except ε β) :
    (Except.ok a >>= f : Except ε β) = f a := rfl

@[simp] theorem except_bind_error {ε α β : Type} (e : ε) (f : α → Except ε β) :
    (Except.error e >>= f : Except ε β) = Except.error e := rfl

@[simp] theorem except_pure_eq {ε α : Type} (a : α) :
    (pure a : Except ε α) = Except.ok a := rfl

/-- The repeated comprehension
`[{"name": x["name"], "url": x["url"]} for x in v]` used by the source for
tags, similar artists, top tracks and top albums. -/
def projectNameUrl (v : Json) : Except PyError (List Json) := do
  (← pyIter v).mapM fun tag => do
    pure (Json.obj [("name", ← tag.sub "name"), ("url", ← tag.sub "url")])

/-- `LastFM.get_artist`, lines 193-221 of the source, with the decoded
response body as input. -/
def get_artist (body : Json) : Except PyError Json := do
  let resp ← request body (some "artist")
  let a ← resp.sub "artist"
  let url ← a.sub "url"
  let nm ← a.sub "name"
  let img ← (← (← a.sub "image").idx (-1)).sub "#text"
  let plays ← pyInt (← (← a.sub "stats").sub "userplaycount")
  let listeners ← pyInt (← (← a.sub "stats").sub "listeners")
  let playcount ← pyInt (← (← a.sub "stats").sub "playcount")
  let bio ← (← a.sub "bio").sub "content"
  let tags ← projectNameUrl (← (← a.sub "tags").sub "tag")
  let similar ← projectNameUrl (← (← a.sub "similar").sub "artist")
  let toptracks ← projectNameUrl (← (← a.sub "toptracks").sub "track")
  let topalbums ← projectNameUrl (← (← a.sub "topalbums").sub "album")
  pure (Json.obj
    [("url", url), ("name", nm), ("image", orNone img),
     ("plays", Json.num plays), ("listeners", Json.num listeners),
     ("playcount", Json.num playcount), ("bio", bio),
     ("tags", Json.arr tags), ("similar", Json.arr similar),
     ("tracks", Json.arr toptracks), ("albums", Json.arr topalbums)])

/-- `LastFM.profile`, lines 60-80 of the source, with the decoded
response body as input (the source passes no required field name to
`request` here). -/
def profile (body : Json) : Except PyError Json := do
  let resp ← request body none
  let user ← resp.sub "user"
  let url ← user.sub "url"
  let uname ← user.sub "name"
  let realname ← user.sub "realname"
  let avatarRaw ← (← (← user.sub "image").idx (-1)).sub "#text"
  let avatar ← pyReplace avatarRaw ".png" ".gif"
  let scrobbles ← pyInt (← user.sub "playcount")
  let artists ← pyInt (← user.sub "artist_count")
  let albums ← pyInt (← user.sub "album_count")
  let tracksCount ← pyInt (← user.sub "track_count")
  let registered ← (← user.sub "registered").sub "#text"
  let country ← user.sub "country"
  let age ← pyInt (← user.sub "age")
  let typ ← user.sub "type"
  pure (Json.obj
    [("url", url), ("username", uname), ("government", orNone realname),
     ("avatar", orNone avatar),
     ("library", Json.obj
       [("scrobbles", Json.num scrobbles), ("artists", Json.num artists),
        ("albums", Json.num albums), ("tracks", Json.num tracksCount)]),
     ("meta", Json.obj
       [("registered", registered), ("country", orNone country),
        ("age", Json.num age), ("pro", Json.bool (pyEqStr typ "subscriber"))])])

/-- A well-formed `user.getInfo` body with the given `realname` value. -/
def mkProfileBody (realname : String) : Json :=
  Json.obj [("user", Json.obj
    [("url", Json.str "https://last.fm/user/alice"),
     ("name", Json.str "alice"),
     ("realname", Json.str realname),
     ("image", Json.arr [Json.obj [("#text", Json.str "a.png")]]),
     ("playcount", Json.str "10"),
     ("artist_count", Json.str "2"),
     ("album_count", Json.str "3"),
     ("track_count", Json.str "4"),
     ("registered", Json.obj [("#text", Json.str "2020-01-01")]),
     ("country", Json.str ""),
     ("age", Json.str "0"),
     ("type", Json.str "user")])]

/-- C4 counterexample: a profile whose upstream `realname` is the literal
string "None" maps to a record whose `government` field is the string
"None" itself — the value is passed straight through, not normalized. -/
theorem C4_none_string_passed_through :
    (profile (mkProfileBody "None")).toOption.bind (fun r => r.get "government")
      = some (Json.str "None") := rfl

/-- C4 amended: the `x or None` normalization used by `profile` (and by
the image fields) turns the empty string into `None` but passes the
literal string "None" through unchanged, while the comparison-based
normalization used for the user country in `now_playing` turns "None"
into `None` but passes the empty string through unchanged; only the empty
string is absent from a mapped profile. -/
theorem C4_inconsistent_absence_normalization :
    orNone (Json.str "") = Json.null
  ∧ orNone (Json.str "None") = Json.str "None"
  ∧ noneStrToNull (Json.str "None") = Json.null
  ∧ noneStrToNull (Json.str "") = Json.str ""
  ∧ (profile (mkProfileBody "")).toOption.bind (fun r => r.get "government")
      = some Json.null :=
  ⟨rfl, rfl, rfl, rfl, rfl⟩

/-- A well-formed `artist.getInfo` body whose `tags.tag` is a single tag
object rather than a list. -/
def artistBodySingleTag : Json :=
  Json.obj [("artist", Json.obj
    [("url", Json.str "https://last.fm/music/A"),
     ("name", Json.str "A"),
     ("image", Json.arr [Json.obj [("#text", Json.str "ai")]]),
     ("stats", Json.obj [("userplaycount", Json.str "5"),
                         ("listeners", Json.str "6"),
                         ("playcount", Json.str "7")]),
     ("bio", Json.obj [("content", Json.str "bio")]),
     ("tags", Json.obj [("tag",
        Json.obj [("name", Json.str "rock"), ("url", Json.str "u")])]),
     ("similar", Json.obj [("artist", Json.arr [])]),
     ("toptracks", Json.obj [("track", Json.arr [])]),
     ("topalbums", Json.obj [("album", Json.arr [])])])]

/-- C3 counterexample: on a payload where `tags.tag` is the single object
`{"name": "rock", "url": "u"}`, `get_artist` does not produce the
one-element tag list the claim requires — iterating the object yields its
keys and indexing a key string raises `TypeError`. -/
theorem C3_single_tag_object_fails :
    get_artist artistBodySingleTag = .error PyError.typeError := rfl

/-- C3 amended: the mappers perform no single-object normalization — the
name/url projection applied to a non-empty single object fails with a
`TypeError`, while an array of two tag objects is projected to both
elements in order (the one guarded site, the album track list in
`now_playing`, maps a single object to the empty list instead of a
one-element list). -/
theorem C3_no_single_object_normalization (k : String) (v : Json)
    (fs : List (String × Json)) (t1n t1u t2n t2u : Json) :
    projectNameUrl (Json.obj ((k, v) :: fs)) = .error PyError.typeError
  ∧ projectNameUrl (Json.arr
      [Json.obj [("name", t1n), ("url", t1u)],
       Json.obj [("name", t2n), ("url", t2u)]])
    = .ok [Json.obj [("name", t1n), ("url", t1u)],
           Json.obj [("name", t2n), ("url", t2u)]] :=
  ⟨rfl, rfl⟩

/-- The per-artist mapping of `LastFM.top_artists`, lines 297-302. -/
def mapTopArtist (artist : Json) : Except PyError Json := do
  pure (Json.obj
    [("url", ← artist.sub "url"), ("name", ← artist.sub "name"),
     ("image", orNone (← (← (← artist.sub "image").idx (-1)).sub "#text")),
     ("plays", Json.num (← pyInt (← artist.sub "playcount")))])

/-- `LastFM.top_artists`, lines 286-304, with the decoded body as input. -/
def top_artists (body : Json) : Except PyError (List Json) := do
  let resp ← request body (some "topartists")
  (← pyIter (← (← resp.sub "topartists").sub "artist")).mapM mapTopArtist

/-- The per-track mapping of `LastFM.top_tracks`, lines 317-327. -/
def mapTopTrack (track : Json) : Except PyError Json := do
  pure (Json.obj
    [("url", ← track.sub "url"), ("name", ← track.sub "name"),
     ("image", orNone (← (← (← track.sub "image").idx (-1)).sub "#text")),
     ("plays", Json.num (← pyInt (← track.sub "playcount"))),
     ("artist", Json.obj
       [("url", ← (← track.sub "artist").sub "url"),
        ("name", ← (← track.sub "artist").sub "name")])])

/-- `LastFM.top_tracks`, lines 306-328. -/
def top_tracks (body : Json) : Except PyError (List Json) := do
  let resp ← request body (some "toptracks")
  (← pyIter (← (← resp.sub "toptracks").sub "track")).mapM mapTopTrack

/-- The per-album mapping of `LastFM.top_albums`, lines 341-351. -/
def mapTopAlbum (album : Json) : Except PyError Json := do
  pure (Json.obj
    [("url", ← album.sub "url"), ("name", ← album.sub "name"),
     ("image", orNone (← (← (← album.sub "image").idx (-1)).sub "#text")),
     ("plays", Json.num (← pyInt (← album.sub "playcount"))),
     ("artist", Json.obj
       [("url", ← (← album.sub "artist").sub "url"),
        ("name", ← (← album.sub "artist").sub "name")])])

/-- `LastFM.top_albums`, lines 330-352. -/
def top_albums (body : Json) : Except PyError (List Json) := do
  let resp ← request body (some "topalbums")
  (← pyIter (← (← resp.sub "topalbums").sub "album")).mapM mapTopAlbum

/-- The per-artist mapping of `LastFM.library_artists`, lines 455-460. -/
def mapLibraryArtist (artist : Json) : Except PyError Json := do
  pure (Json.obj
    [("url", ← artist.sub "url"), ("name", ← artist.sub "name"),
     ("image", orNone (← (← (← artist.sub "image").idx (-1)).sub "#text")),
     ("plays", Json.num (← pyInt (← artist.sub "playcount")))])

/-- `LastFM.library_artists`, lines 444-462. -/
def library_artists (body : Json) : Except PyError (List Json) := do
  let resp ← request body (some "topartists")
  (← pyIter (← (← resp.sub "topartists").sub "artist")).mapM mapLibraryArtist

/-- The per-track mapping of `LastFM.library_tracks`, lines 475-485. -/
def mapLibraryTrack (track : Json) : Except PyError Json := do
  pure (Json.obj
    [("url", ← track.sub "url"), ("name", ← track.sub "name"),
     ("image", orNone (← (← (← track.sub "image").idx (-1)).sub "#text")),
     ("plays", Json.num (← pyInt (← track.sub "playcount"))),
     ("artist", Json.obj
       [("url", ← (← track.sub "artist").sub "url"),
        ("name", ← (← track.sub "artist").sub "name")])])

/-- `LastFM.library_tracks`, lines 464-486. -/
def library_tracks (body : Json) : Except PyError (List Json) := do
  let resp ← request body (some "toptracks")
  (← pyIter (← (← resp.sub "toptracks").sub "track")).mapM mapLibraryTrack

/-- The per-album mapping of `LastFM.library_albums`, lines 499-509. -/
def mapLibraryAlbum (album : Json) : Except PyError Json := do
  pure (Json.obj
    [("url", ← album.sub "url"), ("name", ← album.sub "name"),
     ("image", orNone (← (← (← album.sub "image").idx (-1)).sub "#text")),
     ("plays", Json.num (← pyInt (← album.sub "playcount"))),
     ("artist", Json.obj
       [("url", ← (← album.sub "artist").sub "url"),
        ("name", ← (← album.sub "artist").sub "name")])])

/-- `LastFM.library_albums`, lines 488-510. -/
def library_albums (body : Json) : Except PyError (List Json) := do
  let resp ← request body (some "topalbums")
  (← pyIter (← (← resp.sub "topalbums").sub "album")).mapM mapLibraryAlbum

/-- The query parameters sent by `top_artists`. -/
def top_artists_params (username period : String) (limit : Int) :
    List (String × Json) :=
  [("method", Json.str "user.getTopArtists"), ("username", Json.str username),
   ("period", Json.str period), ("limit", Json.num limit)]

/-- The query parameters sent by `library_artists`. -/
def library_artists_params (username period : String) (limit : Int) :
    List (String × Json) :=
  [("method", Json.str "user.getTopArtists"), ("username", Json.str username),
   ("period", Json.str period), ("limit", Json.num limit)]

/-- The query parameters sent by `top_tracks`. -/
def top_tracks_params (username period : String) (limit : Int) :
    List (String × Json) :=
  [("method", Json.str "user.getTopTracks"), ("username", Json.str username),
   ("period", Json.str period), ("limit", Json.num limit)]

/-- The query parameters sent by `library_tracks`. -/
def library_tracks_params (username period : String) (limit : Int) :
    List (String × Json) :=
  [("method", Json.str "user.getTopTracks"), ("username", Json.str username),
   ("period", Json.str period), ("limit", Json.num limit)]

/-- The query parameters sent by `top_albums`. -/
def top_albums_params (username period : String) (limit : Int) :
    List (String × Json) :=
  [("method", Json.str "user.getTopAlbums"), ("username", Json.str username),
   ("period", Json.str period), ("limit", Json.num limit)]

/-- The query parameters sent by `library_albums`. -/
def library_albums_params (username period : String) (limit : Int) :
    List (String × Json) :=
  [("method", Json.str "user.getTopAlbums"), ("username", Json.str username),
   ("period", Json.str period), ("limit", Json.num limit)]

/-- C10: each library method is extensionally equal to its top twin —
same outgoing query parameters and the same mapping of any decoded
response body, hence the same result or the same failure. -/
theorem C10_library_methods_equal_top_methods
    (username period : String) (limit : Int) (body : Json) :
    library_artists_params username period limit
      = top_artists_params username period limit
  ∧ library_artists body = top_artists body
  ∧ library_albums_params username period limit
      = top_albums_params username period limit
  ∧ library_albums body = top_albums body
  ∧ library_tracks_params username period limit
      = top_tracks_params username period limit
  ∧ library_tracks body = top_tracks body :=
  ⟨rfl, rfl, rfl, rfl, rfl, rfl⟩

/-- The query parameters of the first `get_album` definition, line 254:
artist plus album. -/
def get_album_v1_params (artist album : String) : List (String × Json) :=
  [("method", Json.str "album.getInfo"), ("artist", Json.str artist),
   ("album", Json.str album)]

/-- The query parameters of the second `get_album` definition, line 354:
username plus album. -/
def get_album_v2_params (username album : String) : List (String × Json) :=
  [("method", Json.str "album.getInfo"), ("username", Json.str username),
   ("album", Json.str album)]

/-- The parameters sent by the effective `get_album`: a Python class body
binds the later of two same-named methods, so the line 354 definition
shadows the line 254 one. -/
def get_album_params (a b : String) : List (String × Json) :=
  get_album_v2_params a b

/-- C7: the effective `get_album` does not parameterize the request by
artist — its first input is sent as `username` and no `artist` parameter
is present, unlike the shadowed first definition, which matches the
claim. -/
theorem C7_get_album_sends_username_not_artist :
    get_album_params "Radiohead" "OK Computer"
      = [("method", Json.str "album.getInfo"),
         ("username", Json.str "Radiohead"),
         ("album", Json.str "OK Computer")]
  ∧ (get_album_params "Radiohead" "OK Computer").lookup "artist" = none
  ∧ (get_album_v1_params "Radiohead" "OK Computer").lookup "artist"
      = some (Json.str "Radiohead") :=
  ⟨rfl, rfl, rfl⟩

theorem except_bind_ok_dissect {ε α β : Type} {e : Except ε α}
    {k : α → Except ε β} {r : β} (h : (e >>= k) = .ok r) :
    ∃ a, e = .ok a ∧ k a = .ok r := by
  cases e with
  | error x => simp at h
  | ok a => exact ⟨a, rfl, by simpa using h⟩

theorem mapM_ok_length_and_elems {α β : Type} (f : α → Except PyError β) :
    ∀ (xs : List α) (ys : List β), xs.mapM f = .ok ys →
      ys.length = xs.length ∧
      ∀ i (h1 : i < xs.length) (h2 : i < ys.length),
        f (xs.get ⟨i, h1⟩) = .ok (ys.get ⟨i, h2⟩) := by
  intro xs
  induction xs with
  | nil =>
    intro ys h
    rw [List.mapM_nil] at h
    cases h
    exact ⟨rfl, fun i h1 _ => absurd h1 (by simp)⟩
  | cons x xs ih =>
    intro ys h
    rw [List.mapM_cons] at h
    obtain ⟨y, hy, h⟩ := except_bind_ok_dissect h
    obtain ⟨ys2, hys2, h⟩ := except_bind_ok_dissect h
    simp only [except_pure_eq] at h
    cases h
    obtain ⟨hlen, helem⟩ := ih ys2 hys2
    refine ⟨by simp [hlen], ?_⟩
    intro i h1 h2
    cases i with
    | zero => simpa using hy
    | succ j => simpa using helem j (by simpa using h1) (by simpa using h2)

theorem sub_eq_of_get_eq (a : Json) (k : String) (v : Json)
    (h : a.get k = some v) : a.sub k = .ok v := by
  cases a <;> simp_all [Json.get, Json.sub]

theorem mapTopArtist_ok_plays (a t : Json) (h : mapTopArtist a = .ok t) :
    ∃ pc n, a.sub "playcount" = .ok pc ∧ pyInt pc = .ok n
      ∧ t.get "plays" = some (Json.num n) := by
  unfold mapTopArtist at h
  obtain ⟨u, _, h⟩ := except_bind_ok_dissect h
  obtain ⟨nm, _, h⟩ := except_bind_ok_dissect h
  obtain ⟨imgl, _, h⟩ := except_bind_ok_dissect h
  obtain ⟨lastImg, _, h⟩ := except_bind_ok_dissect h
  obtain ⟨itext, _, h⟩ := except_bind_ok_dissect h
  obtain ⟨pc, hpc, h⟩ := except_bind_ok_dissect h
  obtain ⟨n, hn, h⟩ := except_bind_ok_dissect h
  cases h
  exact ⟨pc, n, hpc, hn, rfl⟩

/-- C8: a `topartists` payload carrying a list of n artist objects maps
to exactly n summary records, in payload order, and whenever the
`playcount` of an artist is a string it is parsed to an integer in the
`plays` field of the record. -/
theorem C8_top_artists_length_order_plays (arts rs : List Json)
    (hok : top_artists
        (Json.obj [("topartists", Json.obj [("artist", Json.arr arts)])])
      = .ok rs) :
    rs.length = arts.length
  ∧ (∀ i (h1 : i < arts.length) (h2 : i < rs.length),
      mapTopArtist (arts.get ⟨i, h1⟩) = .ok (rs.get ⟨i, h2⟩))
  ∧ (∀ i (h1 : i < arts.length) (h2 : i < rs.length) (s : String),
      (arts.get ⟨i, h1⟩).get "playcount" = some (Json.str s) →
      ∃ n, pyIntOfStr s = some n
        ∧ (rs.get ⟨i, h2⟩).get "plays" = some (Json.num n)) := by
  have hun : top_artists
      (Json.obj [("topartists", Json.obj [("artist", Json.arr arts)])])
      = arts.mapM mapTopArtist := rfl
  rw [hun] at hok
  obtain ⟨hlen, helem⟩ := mapM_ok_length_and_elems mapTopArtist arts rs hok
  refine ⟨hlen, helem, ?_⟩
  intro i h1 h2 s hs
  obtain ⟨pc, n, hpc, hn, hplays⟩ := mapTopArtist_ok_plays _ _ (helem i h1 h2)
  rw [sub_eq_of_get_eq _ _ _ hs] at hpc
  cases hpc
  refine ⟨n, ?_, hplays⟩
  cases hcase : pyIntOfStr s with
  | none =>
    rw [show pyInt (Json.str s) = Except.error PyError.valueError from by
          simp [pyInt, hcase]] at hn
    cases hn
  | some m =>
    rw [show pyInt (Json.str s) = Except.ok m from by simp [pyInt, hcase]] at hn
    cases hn
    rfl

/-- A canned `topartists` payload of five artist objects. -/
def artsFive : List Json :=
  [Json.obj [("url", Json.str "u1"), ("name", Json.str "A1"),
     ("image", Json.arr [Json.obj [("#text", Json.str "")]]),
     ("playcount", Json.str "123")],
   Json.obj [("url", Json.str "u2"), ("name", Json.str "A2"),
     ("image", Json.arr [Json.obj [("#text", Json.str "i2")]]),
     ("playcount", Json.str "45")],
   Json.obj [("url", Json.str "u3"), ("name", Json.str "A3"),
     ("image", Json.arr [Json.obj [("#text", Json.str "i3")]]),
     ("playcount", Json.str "7")],
   Json.obj [("url", Json.str "u4"), ("name", Json.str "A4"),
     ("image", Json.arr [Json.obj [("#text", Json.str "")]]),
     ("playcount", Json.str "0")],
   Json.obj [("url", Json.str "u5"), ("name", Json.str "A5"),
     ("image", Json.arr [Json.obj [("#text", Json.str "i5")]]),
     ("playcount", Json.str "999")]]

/-- The records `top_artists` maps `artsFive` to. -/
def artsFiveOut : List Json :=
  [Json.obj [("url", Json.str "u1"), ("name", Json.str "A1"),
     ("image", Json.null), ("plays", Json.num 123)],
   Json.obj [("url", Json.str "u2"), ("name", Json.str "A2"),
     ("image", Json.str "i2"), ("plays", Json.num 45)],
   Json.obj [("url", Json.str "u3"), ("name", Json.str "A3"),
     ("image", Json.str "i3"), ("plays", Json.num 7)],
   Json.obj [("url", Json.str "u4"), ("name", Json.str "A4"),
     ("image", Json.null), ("plays", Json.num 0)],
   Json.obj [("url", Json.str "u5"), ("name", Json.str "A5"),
     ("image", Json.str "i5"), ("plays", Json.num 999)]]

/-- C8 witness: the theorem applied to the canned five-artist payload,
whose `plays` are parsed from strings such as "123". -/
theorem C8_top_artists_witness :
    artsFiveOut.length = artsFive.length ∧ artsFive.length = 5 :=
  ⟨(C8_top_artists_length_order_plays artsFive artsFiveOut rfl).1, rfl⟩

/-- The source expression `not bool(track.get("date"))` computing the
`playing` flag in `now_playing` (line 147) and `recent_tracks`
(line 243). -/
def playingField (track : Json) : Bool := !(optTruthy (track.get "date"))

/-- The conditional image value
`{"url": x["#text"]} if x.get("#text") else None` used for the track
image in `recent_tracks` and `now_playing`, where `x` is the last image
variant. -/
def condImageField (lastImg : Json) : Except PyError Json :=
  if optTruthy (lastImg.get "#text") then do
    pure (Json.obj [("url", ← lastImg.sub "#text")])
  else pure Json.null

/-- The per-track mapping of `LastFM.recent_tracks`, lines 234-250. -/
def mapRecentTrack (track : Json) : Except PyError Json := do
  let url ← track.sub "url"
  let nm ← track.sub "name"
  let imgList ← track.sub "image"
  let lastImg ← imgList.idx (-1)
  let image ← condImageField lastImg
  let plays ← pyInt (← track.sub "userplaycount")
  let artistO ← track.sub "artist"
  let aurl ← artistO.sub "url"
  let anm ← artistO.sub "#text"
  let aimg ← (← artistO.sub "image").idx (-1)
  let aimgT ← aimg.sub "#text"
  let aplays ← pyInt (← (← artistO.sub "stats").sub "userplaycount")
  pure (Json.obj
    [("url", url), ("name", nm), ("image", image),
     ("plays", Json.num plays), ("playing", Json.bool (playingField track)),
     ("artist", Json.obj
       [("url", aurl), ("name", anm), ("image", orNone aimgT),
        ("plays", Json.num aplays)])])

/-- `LastFM.recent_tracks`, lines 223-252, with the decoded body as
input. -/
def recent_tracks (body : Json) : Except PyError (List Json) := do
  let resp ← request body (some "recenttracks")
  (← pyIter (← (← resp.sub "recenttracks").sub "track")).mapM mapRecentTrack

theorem mapRecentTrack_playing (t r : Json) (h : mapRecentTrack t = .ok r) :
    r.get "playing" = some (Json.bool (playingField t)) := by
  unfold mapRecentTrack at h
  obtain ⟨url, _, h⟩ := except_bind_ok_dissect h
  obtain ⟨nm, _, h⟩ := except_bind_ok_dissect h
  obtain ⟨imgList, _, h⟩ := except_bind_ok_dissect h
  obtain ⟨lastImg, _, h⟩ := except_bind_ok_dissect h
  obtain ⟨image, _, h⟩ := except_bind_ok_dissect h
  obtain ⟨upc, _, h⟩ := except_bind_ok_dissect h
  obtain ⟨plays, _, h⟩ := except_bind_ok_dissect h
  obtain ⟨artistO, _, h⟩ := except_bind_ok_dissect h
  obtain ⟨aurl, _, h⟩ := except_bind_ok_dissect h
  obtain ⟨anm, _, h⟩ := except_bind_ok_dissect h
  obtain ⟨aimgList, _, h⟩ := except_bind_ok_dissect h
  obtain ⟨aimg, _, h⟩ := except_bind_ok_dissect h
  obtain ⟨aimgT, _, h⟩ := except_bind_ok_dissect h
  obtain ⟨astats, _, h⟩ := except_bind_ok_dissect h
  obtain ⟨aupc, _, h⟩ := except_bind_ok_dissect h
  obtain ⟨aplays, _, h⟩ := except_bind_ok_dissect h
  cases h
  rfl

/-- A recent-tracks track object whose `date` key is present but maps to
the empty string. -/
def recentTrackDateEmpty : Json :=
  Json.obj
    [("url", Json.str "tu"), ("name", Json.str "T"),
     ("image", Json.arr [Json.obj [("#text", Json.str "img")]]),
     ("userplaycount", Json.str "3"),
     ("date", Json.str ""),
     ("artist", Json.obj
       [("url", Json.str "au"), ("#text", Json.str "A"),
        ("image", Json.arr [Json.obj [("#text", Json.str "ai")]]),
        ("stats", Json.obj [("userplaycount", Json.str "9")])])]

/-- A `recenttracks` body containing only `recentTrackDateEmpty`. -/
def recentBodyDateEmpty : Json :=
  Json.obj [("recenttracks", Json.obj
    [("track", Json.arr [recentTrackDateEmpty])])]

/-- The record `mapRecentTrack` maps `recentTrackDateEmpty` to. -/
def recentTrackDateEmptyOut : Json :=
  Json.obj
    [("url", Json.str "tu"), ("name", Json.str "T"),
     ("image", Json.obj [("url", Json.str "img")]),
     ("plays", Json.num 3), ("playing", Json.bool true),
     ("artist", Json.obj
       [("url", Json.str "au"), ("name", Json.str "A"),
        ("image", Json.str "ai"), ("plays", Json.num 9)])]

/-- C9 counterexample: a track whose raw JSON has a `date` key (mapped to
the empty string) is still mapped with `playing = true` by
`recent_tracks`, contradicting the claim that `playing` is false whenever
a `date` key is present. -/
theorem C9_date_key_present_yet_playing :
    ((recent_tracks recentBodyDateEmpty).toOption.bind
        (fun l => l.head?.bind (fun r => r.get "playing")))
      = some (Json.bool true)
  ∧ (recentTrackDateEmpty.get "date").isSome = true :=
  ⟨rfl, rfl⟩

/-- C9 amended: the `playing` flag of a mapped track record is the truthiness
test `not bool(track.get("date"))`: it is `false` exactly when the raw
track has a `date` key with a truthy value, and `true` when the key is
absent or its value is falsy (for example the empty string). -/
theorem C9_playing_iff_truthy_date (t r : Json) (h : mapRecentTrack t = .ok r) :
    r.get "playing" = some (Json.bool (playingField t))
  ∧ (playingField t = false ↔ ∃ v, t.get "date" = some v ∧ v.truthy = true) := by
  refine ⟨mapRecentTrack_playing t r h, ?_⟩
  unfold playingField
  cases hd : t.get "date" with
  | none => simp [optTruthy, hd]
  | some v => simp [optTruthy, hd]

/-- C9 witness: the amended theorem applied to the concrete track with a
falsy `date` value. -/
theorem C9_playing_iff_truthy_date_witness :
    recentTrackDateEmptyOut.get "playing"
      = some (Json.bool (playingField recentTrackDateEmpty)) :=
  (C9_playing_iff_truthy_date recentTrackDateEmpty recentTrackDateEmptyOut rfl).1

/-- Python tuple unpacking `a, b, c, d = xs`: a `ValueError` unless the
sequence has exactly four elements. -/
def unpack4 (xs : List Json) : Except PyError (Json × Json × Json × Json) :=
  match xs with
  | [a, b, c, d] => .ok (a, b, c, d)
  | _ => .error .valueError

/-- Whether a JSON value is a dictionary (`isinstance(x, dict)`). -/
def Json.isObj : Json → Bool
  | .obj _ => true
  | _ => false

/-- The guarded album track list of `now_playing`, lines 162-171: the
url/name comprehension when `album.get("tracks")` is truthy and the
`track` child is not a dictionary, the empty list otherwise. -/
def albumTracksField (album : Json) : Except PyError Json := do
  if optTruthy (album.get "tracks") then do
    let tr ← (← album.sub "tracks").sub "track"
    if tr.isObj then
      pure (Json.arr [])
    else do
      let items ← pyIter tr
      let mapped ← items.mapM fun t => do
        pure (Json.obj [("url", ← t.sub "url"), ("name", ← t.sub "name")])
      pure (Json.arr mapped)
  else pure (Json.arr [])

/-- The `response["user"]` record of `now_playing`, lines 173-190. -/
def userRecord (user : Json) : Except PyError Json := do
  let url ← user.sub "url"
  let uname ← user.sub "name"
  let realname ← user.sub "realname"
  let avatarRaw ← (← (← user.sub "image").idx (-1)).sub "#text"
  let avatar ← pyReplace avatarRaw ".png" ".gif"
  let scrobbles ← pyInt (← user.sub "playcount")
  let artists ← pyInt (← user.sub "artist_count")
  let albums ← pyInt (← user.sub "album_count")
  let tracksCount ← pyInt (← user.sub "track_count")
  let registered ← (← user.sub "registered").sub "#text"
  let country ← user.sub "country"
  let age ← pyInt (← user.sub "age")
  let typ ← user.sub "type"
  pure (Json.obj
    [("url", url), ("username", uname), ("full_name", orNone realname),
     ("avatar", orNone avatar),
     ("library", Json.obj
       [("scrobbles", Json.num scrobbles), ("artists", Json.num artists),
        ("albums", Json.num albums), ("tracks", Json.num tracksCount)]),
     ("meta", Json.obj
       [("registered", registered), ("country", noneStrToNull country),
        ("age", Json.num age), ("pro", Json.bool (pyEqStr typ "subscriber"))])])

/-- `LastFM.now_playing`, lines 82-191.  The HTTP fan-out is abstracted:
`tracksBody` is the decoded `user.getRecentTracks` body, and the other
four arguments are the decoded bodies the four possible sub-requests
would return.  The task list holds three entries, or four when the most
recent track names a non-empty album, mirroring lines 91-132; gathering
preserves task order and the results are unpacked into four variables
(line 134). -/
def now_playing (tracksBody userBody trackBody artistBody albumBody : Json) :
    Except PyError Json := do
  let tracks ← request tracksBody (some "recenttracks")
  let track0 ← (← (← tracks.sub "recenttracks").sub "track").idx 0
  let _artistName ← (← track0.sub "artist").sub "#text"
  let _trackName ← track0.sub "name"
  let albumName ← (← track0.sub "album").sub "#text"
  let tasks :=
    [request userBody (some "user"), request trackBody (some "track"),
     request artistBody (some "artist")]
    ++ (if albumName.truthy then [request albumBody (some "album")] else [])
  let results ← tasks.mapM id
  let (userR, trackR, artistR, albumR) ← unpack4 results
  let trackI ← trackR.sub "track"
  let userI ← userR.sub "user"
  let artistI ← artistR.sub "artist"
  let turl ← trackI.sub "url"
  let tname ← trackI.sub "name"
  let lastImg ← (← track0.sub "image").idx (-1)
  let imageF ← condImageField lastImg
  let plays ← pyInt (← trackI.sub "userplaycount")
  let aurl ← artistI.sub "url"
  let aname ← artistI.sub "name"
  let aimgT ← (← (← artistI.sub "image").idx (-1)).sub "#text"
  let aplays ← pyInt (← (← artistI.sub "stats").sub "userplaycount")
  let base :=
    [("url", turl), ("name", tname), ("image", imageF),
     ("plays", Json.num plays), ("playing", Json.bool (playingField track0)),
     ("artist", Json.obj
       [("url", aurl), ("name", aname), ("image", orNone aimgT),
        ("plays", Json.num aplays)])]
  let withAlbum ←
    if albumR.truthy then do
      let albumI ← albumR.sub "album"
      let alurl ← albumI.sub "url"
      let alname ← albumI.sub "name"
      let alimgT ← (← (← albumI.sub "image").idx (-1)).sub "#text"
      let alplays ← pyInt (← albumI.sub "userplaycount")
      let altracks ← albumTracksField albumI
      pure (base ++ [("album", Json.obj
        [("url", alurl), ("name", alname), ("image", orNone alimgT),
         ("plays", Json.num alplays), ("tracks", altracks)])])
    else pure base
  let userRec ← userRecord userI
  pure (Json.obj (withAlbum ++ [("user", userRec)]))

/-- A `user.getRecentTracks` body whose single track names the given
album. -/
def mkRecentTracksBody (albumName : String) : Json :=
  Json.obj [("recenttracks", Json.obj [("track", Json.arr
    [Json.obj
      [("artist", Json.obj [("#text", Json.str "A")]),
       ("name", Json.str "T"),
       ("album", Json.obj [("#text", Json.str albumName)]),
       ("image", Json.arr [Json.obj [("#text", Json.str "img")]])]])])]

/-- A well-formed decoded `track.getInfo` body. -/
def trackInfoBody : Json :=
  Json.obj [("track", Json.obj
    [("url", Json.str "tu"), ("name", Json.str "T"),
     ("userplaycount", Json.str "7")])]

/-- A well-formed decoded `artist.getInfo` body. -/
def artistInfoBody : Json :=
  Json.obj [("artist", Json.obj
    [("url", Json.str "au"), ("name", Json.str "A"),
     ("image", Json.arr [Json.obj [("#text", Json.str "ai")]]),
     ("stats", Json.obj [("userplaycount", Json.str "5")])])]

/-- A well-formed decoded `album.getInfo` body. -/
def albumInfoBody : Json :=
  Json.obj [("album", Json.obj
    [("url", Json.str "alu"), ("name", Json.str "Alb"),
     ("image", Json.arr [Json.obj [("#text", Json.str "")]]),
     ("userplaycount", Json.str "2"),
     ("tracks", Json.obj [("track", Json.arr
       [Json.obj [("url", Json.str "t1u"), ("name", Json.str "t1")]])])])]

/-- C2: when the album name of the most recent track is the empty string,
`now_playing` does not return successfully at all — only three tasks are
gathered and unpacking their results into four variables raises a
`ValueError`; with a non-empty album name the call succeeds and the
record carries an `album` key. -/
theorem C2_empty_album_crashes_nonempty_album_present :
    now_playing (mkRecentTracksBody "") (mkProfileBody "Alice")
        trackInfoBody artistInfoBody albumInfoBody
      = .error PyError.valueError
  ∧ ((now_playing (mkRecentTracksBody "Alb") (mkProfileBody "Alice")
        trackInfoBody artistInfoBody albumInfoBody).toOption.bind
       (fun r => r.get "album")).isSome = true :=
  ⟨rfl, rfl⟩
